import Mathlib

/-!
Verification of the Krishi-Sahayak demo application (src/app.py) against its
natural-language specification.  The Python functions are shallowly embedded:
DataFrames become lists of records, machine floats become rationals (all
values handled by the claims are exactly representable), the file system and
the HTTP layer become explicit parameters, and Python's fallible accesses
become Option types.
-/

namespace KrishiSahayak

/-! ## Python string primitives

Models of the Python `str` operations used by app.py, operating on the
character list of a Lean `String`. -/

/-- Model of Python `str.strip()`: drop whitespace from both ends. -/
def pyStrip (s : String) : String :=
  String.mk (((s.data.dropWhile Char.isWhitespace).reverse.dropWhile Char.isWhitespace).reverse)

/-- Model of Python `str.lower()`. -/
def pyLower (s : String) : String := String.mk (s.data.map Char.toLower)

/-- Model of Python `str.capitalize()`: first character upper-cased, the rest
lower-cased. -/
def pyCapitalize (s : String) : String :=
  match s.data with
  | [] => ""
  | c :: cs => String.mk (c.toUpper :: cs.map Char.toLower)

/-- Model of Python `s.startswith(p)`. -/
def pyStartswith (s p : String) : Bool := p.data.isPrefixOf s.data

/-- Boolean substring test on character lists. -/
def subListB (n : List Char) : List Char → Bool
  | [] => n.isPrefixOf []
  | c :: t => n.isPrefixOf (c :: t) || subListB n t

/-- Model of Python `needle in hay` on strings (substring containment). -/
def pyIn (needle hay : String) : Bool := subListB needle.data hay.data

/-- Model of Python `s.replace('\n', ' ')`. -/
def pyReplaceNl (s : String) : String :=
  String.mk (s.data.map (fun c => if c = '\n' then ' ' else c))

/-! ## Numeric formatting

Models of Python `format(x, '.0f')` / `'.1f'` / `'.2f'` on the rational
embedding of floats, using round-half-to-even. -/

/-- Round half to even, as Python `format` does at the last kept digit. -/
def rnd (q : ℚ) : ℤ :=
  let f : ℤ := ⌊q⌋
  if q - (f : ℚ) < 1/2 then f
  else if q - (f : ℚ) > 1/2 then f + 1
  else if f % 2 = 0 then f else f + 1

/-- Model of `f"{x:.0f}"`. -/
def fmt0 (q : ℚ) : String := toString (rnd q)

/-- Model of `f"{x:.1f}"`. -/
def fmt1 (q : ℚ) : String :=
  let n := rnd (10 * q)
  (if n < 0 then "-" else "") ++ toString (n.natAbs / 10) ++ "." ++ toString (n.natAbs % 10)

/-- Model of `f"{x:.2f}"`. -/
def fmt2 (q : ℚ) : String :=
  let n := rnd (100 * q)
  (if n < 0 then "-" else "") ++ toString (n.natAbs / 100) ++ "."
    ++ toString (n.natAbs % 100 / 10) ++ toString (n.natAbs % 10)

/-! ## Weather summarizer (app.py, get_weather_forecast, lines 637-710)

The HTTP layer is out of scope (black-box REST endpoint): the outcome of the
single `requests.get` call is passed in as a `FetchOutcome` parameter, and the
returned Bool records whether that request was issued at all.  Timestamps are
Unix seconds; `datetime.fromtimestamp(dt).strftime("%Y-%m-%d")` buckets by
local calendar day, modelled as the day index `(dt + tz).fdiv 86400` (the
mapping between a day index and its date string is an order-preserving
bijection). -/

/-- One entry of the `weather` list of a raw forecast sample. -/
structure WeatherDescEntry where
  description : Option String
deriving DecidableEq

/-- The `main` block of a raw forecast sample. -/
structure MainData where
  temp : Option ℚ
  temp_min : Option ℚ
  temp_max : Option ℚ
deriving DecidableEq

/-- A raw forecast sample (one element of the JSON `list`); `none` models a
missing key. `rain3h` is `rain.3h`, `windSpeed` is `wind.speed`. -/
structure ForecastItem where
  dt : Option ℤ
  main : Option MainData
  weather : Option (List WeatherDescEntry)
  rain3h : Option ℚ
  windSpeed : Option ℚ
deriving DecidableEq

/-- The fields of a sample that survived the validity checks of the loop body
(lines 661-670). -/
structure SampleData where
  dt : ℤ
  temp : ℚ
  temp_min : ℚ
  temp_max : ℚ
  description : String
  rain3h : ℚ
  windSpeed : ℚ
deriving DecidableEq

/-- Validity checks and field extraction of the per-sample loop body: the item
must have `dt`, `main`, a non-empty `weather` list, `temp`/`temp_min`/
`temp_max` and a description; rain and wind default to 0.  A `none` result
models `continue` (the sample is skipped). -/
def parseForecastItem (it : ForecastItem) : Option SampleData :=
  match it.dt, it.main, it.weather with
  | some dt, some m, some ws =>
    match ws with
    | [] => none
    | w0 :: _ =>
      match m.temp, m.temp_min, m.temp_max, w0.description with
      | some t, some tn, some tx, some d =>
        some { dt := dt, temp := t, temp_min := tn, temp_max := tx,
               description := pyCapitalize d,
               rain3h := it.rain3h.getD 0, windSpeed := it.windSpeed.getD 0 }
      | _, _, _, _ => none
  | _, _, _ => none

/-- Local calendar-day index of a Unix timestamp for timezone offset `tz`. -/
def localDay (tz dt : ℤ) : ℤ := (dt + tz).fdiv 86400

/-- One bucket of `daily_forecasts`.  `none` for a temperature extreme models
the `float('inf')` / `float('-inf')` initial sentinels; `conditions` and
`alerts` are Python sets, modelled as duplicate-free lists. -/
structure DayData where
  min_temp : Option ℚ
  max_temp : Option ℚ
  conditions : List String
  total_rain : ℚ
  alerts : List String
deriving DecidableEq

/-- The defaultdict initial bucket value (line 652). -/
def emptyDayData : DayData :=
  { min_temp := none, max_temp := none, conditions := [], total_rain := 0, alerts := [] }

/-- Python `set.add`. -/
def setAdd (l : List String) (s : String) : List String := if s ∈ l then l else l ++ [s]

/-- The alert strings a single sample contributes (lines 677-680).  Rain and
wind values are formatted with `:.1f`, temperature values with `:.0f`. -/
def sampleAlerts (temp rain_3h wind_speed : ℚ) : List String :=
  (if rain_3h > 5 then ["Heavy rain (" ++ fmt1 rain_3h ++ "mm/3hr)"] else []) ++
  (if temp > 38 then ["High temp (" ++ fmt0 temp ++ "°C)"] else []) ++
  (if temp < 5 then ["Low temp (" ++ fmt0 temp ++ "°C)"] else []) ++
  (if wind_speed > 15 then ["Strong wind (" ++ fmt1 wind_speed ++ " m/s)"] else [])

/-- Accumulate one valid sample into its day bucket (lines 672-680). -/
def addSample (s : SampleData) (d : DayData) : DayData :=
  { min_temp := some (match d.min_temp with | none => s.temp_min | some v => min v s.temp_min),
    max_temp := some (match d.max_temp with | none => s.temp_max | some v => max v s.temp_max),
    conditions := setAdd d.conditions s.description,
    total_rain := d.total_rain + s.rain3h,
    alerts := (sampleAlerts s.temp s.rain3h s.windSpeed).foldl setAdd d.alerts }

/-- Update the bucket map at key `k` (defaultdict access + mutation). -/
def updateBucket (k : ℤ) (f : DayData → DayData) : List (ℤ × DayData) → List (ℤ × DayData)
  | [] => [(k, f emptyDayData)]
  | (k', d) :: rest => if k' = k then (k', f d) :: rest else (k', d) :: updateBucket k f rest

/-- The sample-bucketing loop of get_weather_forecast (lines 660-680). -/
def buildBuckets (tz : ℤ) (items : List ForecastItem) : List (ℤ × DayData) :=
  items.foldl (fun m it =>
    match parseForecastItem it with
    | none => m
    | some s => updateBucket (localDay tz s.dt) (addSample s) m) []

/-- Bucket lookup by day key. -/
def lookupBucket (m : List (ℤ × DayData)) (k : ℤ) : Option DayData :=
  (m.find? (fun p => p.1 = k)).map Prod.snd

/-- Weekday abbreviation of a day index (day 0 = 1970-01-01 was a Thursday),
modelling `strftime("%a")`. -/
def weekdayAbbrev (k : ℤ) : String :=
  (["Thu", "Fri", "Sat", "Sun", "Mon", "Tue", "Wed"].getD (k % 7).natAbs "Thu")

/-- Render one day's summary line (lines 685-698). -/
def renderDay (today k : ℤ) (d : DayData) : String :=
  let dayName := weekdayAbbrev k
  let dayLabel := if k = today then "Today" else if k = today + 1 then "Tomorrow" else dayName
  let conds := List.insertionSort (fun a b : String => a ≤ b) d.conditions
  let conditionsStr := if conds = [] then "Conditions unclear" else ", ".intercalate conds
  let rainStr := if d.total_rain > 1/10 then ", Rain: " ++ fmt1 d.total_rain ++ "mm" else ""
  let alertsStr :=
    if d.alerts = [] then ""
    else ". Alerts: " ++ ", ".intercalate (List.insertionSort (fun a b : String => a ≤ b) d.alerts)
  let minT := match d.min_temp with | some v => fmt0 v | none => "N/A"
  let maxT := match d.max_temp with | some v => fmt0 v | none => "N/A"
  dayLabel ++ " (" ++ dayName ++ "): Temp " ++ minT ++ "°C / " ++ maxT ++ "°C, "
    ++ conditionsStr ++ rainStr ++ alertsStr

/-- Result payload of the weather summarizer. -/
inductive WeatherResult where
  | error (message : String)
  | success (location : String) (daily_summary : List String)
deriving DecidableEq

/-- The body of the JSON response of a successful HTTP fetch: `hasList` is the
`list` key (`none` models it missing or not a list), `cityName` is
`city.name`. -/
structure WData where
  hasList : Option (List ForecastItem)
  cityName : Option String

/-- Outcome of the single `requests.get` call, supplied as a parameter since
the HTTP layer is a black box. -/
inductive FetchOutcome where
  | httpError (status : ℕ)
  | networkError
  | ok (d : WData)

/-- Shallow embedding of get_weather_forecast (lines 637-710).  `tz` is the
local timezone offset and `today` the wall-clock day index at request time.
The second component of the result records whether the HTTP request was
issued. -/
def get_weather_forecast (latitude longitude : ℚ) (api_key : String) (tz today : ℤ)
    (fetch : FetchOutcome) : WeatherResult × Bool :=
  if latitude = 0 ∧ longitude = 0 then
    (.error "Location not set in profile. Cannot fetch weather.", false)
  else if api_key = "" then
    (.error "Weather API Key is missing in the configuration.", false)
  else
    match fetch with
    | .httpError status =>
      (.error
        (if status = 401 then
          "Weather API Key invalid or unauthorized. Please check the key in the sidebar."
         else if status = 404 then
          "Weather data not found for location (" ++ toString latitude ++ ","
            ++ toString longitude ++ ")."
         else if status = 429 then
          "Weather API rate limit exceeded. Please try again later."
         else
          "Weather service error (Code: " ++ toString status
            ++ "). Check API key or service status."), true)
    | .networkError => (.error "Network error connecting to weather service.", true)
    | .ok d =>
      match d.hasList with
      | none => (.error "Unexpected weather API response format.", true)
      | some items =>
        let locationName := d.cityName.getD ("Lat:" ++ fmt2 latitude ++ ",Lon:" ++ fmt2 longitude)
        let buckets := buildBuckets tz items
        let sortedKeys :=
          (List.insertionSort (fun a b : ℤ => a ≤ b) (buckets.map Prod.fst)).take 5
        let lines := sortedKeys.map (fun k => renderDay today k ((lookupBucket buckets k).getD emptyDayData))
        if lines = [] then (.error "Could not generate daily forecast summary.", true)
        else (.success locationName lines, true)

/-! ## Coordinate coercion in process_farmer_request (lines 767-771)

`float(lat)` / `float(lon)` with the except-branch falling back to the
profile defaults (0.0, 0.0).  A value that is not coercible to float is
modelled as `none`. -/

/-- Model of `try: lat_f = float(lat); lon_f = float(lon) except: defaults`:
if either coercion fails, both fall back to the (0, 0) defaults. -/
def coerceProfileCoords (lat lon : Option ℚ) : ℚ × ℚ :=
  match lat, lon with
  | some a, some b => (a, b)
  | _, _ => (0, 0)

/-! ## Claims C1-C4 -/

/-- C1: For every API key (including the empty one), every timezone/clock and
every possible fetch outcome, get_weather_forecast at latitude 0, longitude 0
returns the "Location not set" error and does not issue the HTTP request; the
sentinel check precedes the missing-key check since the result is the
location error even for an empty key. -/
theorem unset_location_sentinel (api_key : String) (tz today : ℤ) (fetch : FetchOutcome) :
    get_weather_forecast 0 0 api_key tz today fetch =
      (WeatherResult.error "Location not set in profile. Cannot fetch weather.", false) := by
  simp [get_weather_forecast]

/-- C2 counterexample: a latitude that is not coercible to float is defaulted
(together with the longitude) to the (0,0) sentinel by process_farmer_request,
and the weather call then returns the "Location not set" error — a message
that does not mention invalid coordinates — with no network call.  No
"invalid coordinates" error path exists in the code. -/
theorem noncoercible_coords_no_invalid_error :
    coerceProfileCoords none (some 10) = (0, 0) ∧
    (get_weather_forecast (coerceProfileCoords none (some 10)).1
        (coerceProfileCoords none (some 10)).2 "somekey" 0 19000 FetchOutcome.networkError).1 =
      WeatherResult.error "Location not set in profile. Cannot fetch weather." ∧
    pyIn "invalid" (pyLower "Location not set in profile. Cannot fetch weather.") = false ∧
    (get_weather_forecast (coerceProfileCoords none (some 10)).1
        (coerceProfileCoords none (some 10)).2 "somekey" 0 19000 FetchOutcome.networkError).2
      = false := by
  refine ⟨rfl, ?_, by decide, ?_⟩ <;> simp [coerceProfileCoords, get_weather_forecast]

/-- C2 amended: whenever latitude or longitude is not coercible to float, the
coercion step of process_farmer_request replaces both with the (0,0) default
sentinel, so the weather summarizer returns the "Location not set" error and
issues no network call (there is no "invalid coordinates" error). -/
theorem noncoercible_coords_default_to_sentinel (lat lon : Option ℚ) (key : String)
    (tz today : ℤ) (fetch : FetchOutcome) (h : lat = none ∨ lon = none) :
    coerceProfileCoords lat lon = (0, 0) ∧
    get_weather_forecast (coerceProfileCoords lat lon).1 (coerceProfileCoords lat lon).2
        key tz today fetch =
      (WeatherResult.error "Location not set in profile. Cannot fetch weather.", false) := by
  have hc : coerceProfileCoords lat lon = (0, 0) := by
    rcases h with h | h
    · subst h; cases lon <;> rfl
    · subst h; cases lat <;> rfl
  rw [hc]
  exact ⟨rfl, by simp [get_weather_forecast]⟩

/-- Witness for the amended C2 at a concrete non-coercible latitude. -/
theorem noncoercible_coords_default_to_sentinel_witness :
    coerceProfileCoords none (some 10) = (0, 0) ∧
    get_weather_forecast (coerceProfileCoords none (some 10)).1
        (coerceProfileCoords none (some 10)).2 "k" 0 19000 FetchOutcome.networkError =
      (WeatherResult.error "Location not set in profile. Cannot fetch weather.", false) :=
  noncoercible_coords_default_to_sentinel none (some 10) "k" 0 19000
    FetchOutcome.networkError (Or.inl rfl)

/-- Rounding a rational that is an integer is the identity. -/
theorem rnd_int (n : ℤ) : rnd (n : ℚ) = n := by
  unfold rnd
  norm_num

/-- Concrete evaluation of the one-decimal format at 6. -/
theorem fmt1_six : fmt1 6 = "6.0" := by
  have h : (10 * 6 : ℚ) = ((60 : ℤ) : ℚ) := by norm_num
  unfold fmt1
  rw [h, rnd_int]
  decide

/-- Concrete evaluation of the one-decimal format at 39. -/
theorem fmt1_thirtynine : fmt1 39 = "39.0" := by
  have h : (10 * 39 : ℚ) = ((390 : ℤ) : ℚ) := by norm_num
  unfold fmt1
  rw [h, rnd_int]
  decide

/-- Concrete evaluation of the zero-decimal format at 39. -/
theorem fmt0_thirtynine : fmt0 39 = "39" := by
  have h : (39 : ℚ) = ((39 : ℤ) : ℚ) := by norm_num
  unfold fmt0
  rw [h, rnd_int]
  decide

/-- The first synthetic sample of spec property P5: 06:00 of day 19000,
temp_min 10, temp_max 20, description "clear", no rain, no wind. -/
def c3SampleA : ForecastItem :=
  { dt := some (19000 * 86400 + 6 * 3600),
    main := some { temp := some 15, temp_min := some 10, temp_max := some 20 },
    weather := some [{ description := some "clear" }],
    rain3h := none, windSpeed := none }

/-- The second synthetic sample of spec property P5: 18:00 of day 19000,
temp_min 8, temp_max 22, description "rain", rain.3h = 6. -/
def c3SampleB : ForecastItem :=
  { dt := some (19000 * 86400 + 18 * 3600),
    main := some { temp := some 12, temp_min := some 8, temp_max := some 22 },
    weather := some [{ description := some "rain" }],
    rain3h := some 6, windSpeed := none }

/-- The day-19000 bucket produced by the two P5 samples. -/
def c3Bucket : DayData :=
  { min_temp := some 8, max_temp := some 22, conditions := ["Clear", "Rain"],
    total_rain := 6, alerts := ["Heavy rain (6.0mm/3hr)"] }

/-- C3: bucketing the two P5 samples (same calendar day) yields a day bucket
with running minimum 8, running maximum 22, a condition set containing both
"Clear" and "Rain" (capitalized), total rainfall 6.0, and the heavy-rain
alert, which fires because 6 > 5 mm per 3 h. -/
theorem weather_bucketing_day_summary :
    lookupBucket (buildBuckets 0 [c3SampleA, c3SampleB]) 19000 = some c3Bucket ∧
    c3Bucket.min_temp = some 8 ∧ c3Bucket.max_temp = some 22 ∧
    "Clear" ∈ c3Bucket.conditions ∧ "Rain" ∈ c3Bucket.conditions ∧
    c3Bucket.total_rain = 6 ∧
    "Heavy rain (" ++ fmt1 6 ++ "mm/3hr)" ∈ c3Bucket.alerts ∧ (6 : ℚ) > 5 := by
  have d1 : localDay 0 1641621600 = 19000 := by decide
  have d2 : localDay 0 1641664800 = 19000 := by decide
  have c1 : pyCapitalize "clear" = "Clear" := by decide
  have c2 : pyCapitalize "rain" = "Rain" := by decide
  have happ : "Heavy rain (" ++ "6.0" ++ "mm/3hr)" = "Heavy rain (6.0mm/3hr)" := by decide
  refine ⟨?_, rfl, rfl, ?_, ?_, rfl, ?_, by norm_num⟩
  · norm_num [buildBuckets, parseForecastItem, c3SampleA, c3SampleB, d1, d2, updateBucket,
      addSample, setAdd, emptyDayData, sampleAlerts, c1, c2, fmt1_six, happ, lookupBucket,
      c3Bucket, List.find?]
    decide
  · simp [c3Bucket]
  · simp [c3Bucket]
  · rw [fmt1_six]; simp [c3Bucket]

/-- A valid sample whose instantaneous temperature 39 triggers the high-temp
alert (39 > 38). -/
def c4Sample : ForecastItem :=
  { dt := some (19000 * 86400 + 6 * 3600),
    main := some { temp := some 39, temp_min := some 30, temp_max := some 40 },
    weather := some [{ description := some "hot" }],
    rain3h := none, windSpeed := none }

/-- C4 counterexample: the high-temp alert produced for a triggering
temperature of 39 is "High temp (39°C)" — the value is formatted with zero
decimal places (`:.0f`), and the one-decimal rendering "39.0" does not occur
in the alert string, refuting the claim that all four alert kinds carry a
one-decimal value. -/
theorem temp_alert_not_one_decimal :
    (lookupBucket (buildBuckets 0 [c4Sample]) 19000).map DayData.alerts =
      some ["High temp (39°C)"] ∧
    (39 : ℚ) > 38 ∧
    fmt1 39 = "39.0" ∧
    pyIn (fmt1 39) "High temp (39°C)" = false := by
  have d1 : localDay 0 1641621600 = 19000 := by decide
  have c1 : pyCapitalize "hot" = "Hot" := by decide
  have happ : "High temp (" ++ "39" ++ "°C)" = "High temp (39°C)" := by decide
  refine ⟨?_, by norm_num, fmt1_thirtynine, ?_⟩
  · norm_num [buildBuckets, parseForecastItem, c4Sample, d1, updateBucket, addSample, setAdd,
      emptyDayData, sampleAlerts, c1, fmt0_thirtynine, happ, lookupBucket, List.find?]
  · rw [fmt1_thirtynine]; decide

/-- C4 amended: every alert carries its triggering numeric value, but the
rain and wind alerts format it to one decimal place (`:.1f`) while the two
temperature alerts format it to zero decimal places (`:.0f`). -/
theorem alert_value_formatting (t r w : ℚ) :
    (r > 5 → "Heavy rain (" ++ fmt1 r ++ "mm/3hr)" ∈ sampleAlerts t r w) ∧
    (t > 38 → "High temp (" ++ fmt0 t ++ "°C)" ∈ sampleAlerts t r w) ∧
    (t < 5 → "Low temp (" ++ fmt0 t ++ "°C)" ∈ sampleAlerts t r w) ∧
    (w > 15 → "Strong wind (" ++ fmt1 w ++ " m/s)" ∈ sampleAlerts t r w) := by
  refine ⟨fun h => ?_, fun h => ?_, fun h => ?_, fun h => ?_⟩ <;>
    simp [sampleAlerts, h, List.mem_append]

/-- Witness for the amended C4 at concrete triggering values. -/
theorem alert_value_formatting_witness :
    ("Heavy rain (" ++ fmt1 6 ++ "mm/3hr)" ∈ sampleAlerts 39 6 16) ∧
    ("High temp (" ++ fmt0 39 ++ "°C)" ∈ sampleAlerts 39 6 16) ∧
    ("Low temp (" ++ fmt0 0 ++ "°C)" ∈ sampleAlerts 0 0 0) ∧
    ("Strong wind (" ++ fmt1 16 ++ " m/s)" ∈ sampleAlerts 39 6 16) :=
  ⟨(alert_value_formatting 39 6 16).1 (by norm_num),
   (alert_value_formatting 39 6 16).2.1 (by norm_num),
   (alert_value_formatting 0 0 0).2.2.1 (by norm_num),
   (alert_value_formatting 39 6 16).2.2.2 (by norm_num)⟩

/-! ## Supporting list and string lemmas -/

/-- Dropping a satisfied prefix twice is the same as dropping it once. -/
theorem dropWhile_dropWhile {α : Type} (p : α → Bool) :
    ∀ l : List α, List.dropWhile p (List.dropWhile p l) = List.dropWhile p l
  | [] => rfl
  | a :: t => by
    by_cases h : p a
    · simp [List.dropWhile_cons, h, dropWhile_dropWhile p t]
    · simp [List.dropWhile_cons, h]

/-- A prefix of a list that `dropWhile` leaves unchanged is itself left
unchanged. -/
theorem dropWhile_eq_self_of_prefix {α : Type} (p : α → Bool) {l l2 : List α}
    (hl : List.dropWhile p l = l) (hp : l2 <+: l) : List.dropWhile p l2 = l2 := by
  cases l2 with
  | nil => rfl
  | cons a t =>
    obtain ⟨s, hs⟩ := hp
    rw [List.cons_append] at hs
    have ha : ¬ p a := by
      intro hpa
      subst hs
      rw [List.dropWhile_cons_of_pos hpa] at hl
      have hsfx : List.dropWhile p (t ++ s) <:+ t ++ s := List.dropWhile_suffix p
      have hlen : (List.dropWhile p (t ++ s)).length ≤ t.length + s.length := by
        have h := hsfx.sublist.length_le
        simpa using h
      have h2 := congrArg List.length hl
      simp [List.length_append] at h2
      omega
    simp [List.dropWhile_cons, ha]

/-- Right-stripping preserves a list already left-stripped. -/
theorem dropWhile_reverse_clean {α : Type} (p : α → Bool) {x : List α}
    (hx : List.dropWhile p x = x) :
    List.dropWhile p ((List.dropWhile p x.reverse).reverse) =
      (List.dropWhile p x.reverse).reverse := by
  apply dropWhile_eq_self_of_prefix p hx
  have hsfx : List.dropWhile p x.reverse <:+ x.reverse := List.dropWhile_suffix p
  have h : (List.dropWhile p x.reverse).reverse <+: x.reverse.reverse :=
    List.reverse_prefix.mpr hsfx
  rwa [List.reverse_reverse] at h

/-- Python `strip` is idempotent. -/
theorem pyStrip_idem (s : String) : pyStrip (pyStrip s) = pyStrip s := by
  have h1 := dropWhile_reverse_clean Char.isWhitespace
    (dropWhile_dropWhile Char.isWhitespace s.data)
  unfold pyStrip
  congr 1
  rw [h1, List.reverse_reverse, dropWhile_dropWhile]

/-- `find?` returns the unique element of the list satisfying the
predicate. -/
theorem find?_eq_some_of_unique {α : Type} (pred : α → Bool) {l : List α} {x : α}
    (hx : x ∈ l) (hpx : pred x = true) (huniq : ∀ y ∈ l, pred y = true → y = x) :
    l.find? pred = some x := by
  induction l with
  | nil => cases hx
  | cons a t ih =>
    by_cases ha : pred a = true
    · have hax : a = x := huniq a (List.mem_cons_self a t) ha
      subst hax
      simp [List.find?_cons, ha]
    · have hx2 : x ∈ t := by
        rcases List.mem_cons.mp hx with h | h
        · subst h; exact absurd hpx ha
        · exact h
      have huniq2 : ∀ y ∈ t, pred y = true → y = x :=
        fun y hy => huniq y (List.mem_cons_of_mem a hy)
      simp only [List.find?_cons, Bool.not_eq_true] at ha ⊢
      rw [ha]
      exact ih hx2 huniq2

/-! ## Profile Store (app.py lines 337-528)

A DataFrame of farmer profiles becomes a list of typed rows; the pandas
`fillna`/`to_numeric` coercions in save and load are identities on such rows,
and the CSV transport itself (out of scope: CSV-file persistence mechanics)
is modelled as the identity on the written row list.  `profile_data` dicts
become records of Option fields (`none` models a missing key / a value the
numeric coercion rejects). -/

/-- One row of the farmer-profile table (columns of CSV_COLUMNS). -/
structure FarmerRow where
  name : String
  language : String
  soil_type : String
  latitude : ℚ
  longitude : ℚ
  farm_size_ha : ℚ
deriving DecidableEq

/-- The `profile_data` dict passed to add_or_update_farmer; `none` models a
missing key, and for the numeric fields also a value that
`pd.to_numeric(..., errors='coerce')` turns into NaN. -/
structure ProfileData where
  name : Option String
  language : Option String
  soil_type : Option String
  latitude : Option ℚ
  longitude : Option ℚ
  farm_size_ha : Option ℚ

/-- Cleaning of the text fields in add_or_update_farmer (lines 417-424):
strip, then substitute the default if the result is empty. -/
def cleanStr (value : Option String) (dflt : String) : String :=
  if pyStrip (value.getD "") = "" then dflt else pyStrip (value.getD "")

/-- The `new_data` row assembled by add_or_update_farmer (lines 390-426):
lat/lon default to 0.0 when not coercible, farm size defaults to 1.0 and is
reset to 1.0 unless strictly positive, text fields are stripped with
defaults. -/
def mkNewData (p : ProfileData) (profile_name_clean : String) : FarmerRow :=
  { name := cleanStr p.name profile_name_clean,
    language := cleanStr p.language "English",
    soil_type := cleanStr p.soil_type "Unknown",
    latitude := p.latitude.getD 0,
    longitude := p.longitude.getD 0,
    farm_size_ha := if (p.farm_size_ha.getD 1) > 0 then p.farm_size_ha.getD 1 else 1 }

/-- Replace the first row whose lower-cased name equals `key` (the
`df.loc[existing_indices[0], ...] = ...` update of line 442). -/
def replaceFirst (key : String) (nw : FarmerRow) : List FarmerRow → List FarmerRow
  | [] => []
  | r :: rs => if pyLower r.name = key then nw :: rs else r :: replaceFirst key nw rs

/-- Shallow embedding of add_or_update_farmer (lines 376-458): no-op on an
empty (stripped) name, otherwise replace the first case-insensitive name
match in place, or append a new row when there is none. -/
def add_or_update_farmer (df : List FarmerRow) (profile_data : ProfileData) : List FarmerRow :=
  let profile_name_clean := pyStrip (profile_data.name.getD "")
  if profile_name_clean = "" then df
  else
    let name_lower := pyLower profile_name_clean
    let new_data := mkNewData profile_data profile_name_clean
    if new_data.name = "" then df
    else if df.any (fun r => pyLower r.name == name_lower) then
      replaceFirst name_lower new_data df
    else df ++ [new_data]

/-- Shallow embedding of save_farmer_db (lines 462-498): on typed rows the
`fillna`/`to_numeric` standardisations are identities, so saving keeps the
rows with a non-empty name, sorted by case-insensitive name, and the result
is the table as written to disk. -/
def save_farmer_db (df : List FarmerRow) : List FarmerRow :=
  List.insertionSort (fun a b : FarmerRow => pyLower a.name ≤ pyLower b.name)
    (df.filter (fun r => !(r.name == "")))

/-- Shallow embedding of load_or_create_farmer_db (lines 337-373) reading the
written table: on typed rows the column backfills and numeric coercions are
identities, and rows with an (effectively) empty name are removed. -/
def load_or_create_farmer_db (file : List FarmerRow) : List FarmerRow :=
  file.filter (fun r => !(r.name == ""))

/-- The per-field sanitisation find_farmer applies to the matched row
(lines 513-526): numeric fields are already valid rationals here, string
fields are stripped with defaults for empty language/soil. -/
def sanitizeRow (r : FarmerRow) : FarmerRow :=
  { name := pyStrip r.name,
    language := if pyStrip r.language = "" then "English" else pyStrip r.language,
    soil_type := if pyStrip r.soil_type = "" then "Unknown" else pyStrip r.soil_type,
    latitude := r.latitude, longitude := r.longitude, farm_size_ha := r.farm_size_ha }

/-- Shallow embedding of find_farmer (lines 502-528): first case-insensitive
match on the stripped name, sanitised. -/
def find_farmer (df : List FarmerRow) (name : String) : Option FarmerRow :=
  if df = [] then none
  else
    let name_clean := pyStrip name
    if name_clean = "" then none
    else
      match df.find? (fun r => pyLower r.name == pyLower name_clean) with
      | some row => some (sanitizeRow row)
      | none => none

/-! ### Lemmas about replaceFirst -/

/-- replaceFirst preserves the length of the table. -/
theorem replaceFirst_length (key : String) (nw : FarmerRow) :
    ∀ l : List FarmerRow, (replaceFirst key nw l).length = l.length
  | [] => rfl
  | r :: rs => by
    by_cases h : pyLower r.name = key <;>
      simp [replaceFirst, h, replaceFirst_length key nw rs]

/-- When the new row carries the key, replaceFirst preserves the multiset of
lower-cased names positionally. -/
theorem replaceFirst_map_key (key : String) (nw : FarmerRow) (hk : pyLower nw.name = key) :
    ∀ l : List FarmerRow,
      (replaceFirst key nw l).map (fun r => pyLower r.name) =
        l.map (fun r => pyLower r.name)
  | [] => rfl
  | r :: rs => by
    by_cases h : pyLower r.name = key
    · simp [replaceFirst, h, hk]
    · simp [replaceFirst, h, replaceFirst_map_key key nw hk rs]

/-- The new row is a member of the result whenever some row matched. -/
theorem mem_replaceFirst (key : String) (nw : FarmerRow) :
    ∀ l : List FarmerRow, l.any (fun r => pyLower r.name == key) = true →
      nw ∈ replaceFirst key nw l
  | [], h => by simp at h
  | r :: rs, h => by
    by_cases hr : pyLower r.name = key
    · simp [replaceFirst, hr]
    · have h2 : rs.any (fun r => pyLower r.name == key) = true := by
        simp [List.any_cons, hr] at h
        simpa using h
      simp [replaceFirst, hr]
      exact Or.inr (mem_replaceFirst key nw rs h2)

/-- Rows whose lower-cased name differs from the key are untouched by
replaceFirst (sub-list of non-matching rows preserved verbatim). -/
theorem replaceFirst_filter_ne (key : String) (nw : FarmerRow) (hk : pyLower nw.name = key) :
    ∀ l : List FarmerRow,
      (replaceFirst key nw l).filter (fun r => !(pyLower r.name == key)) =
        l.filter (fun r => !(pyLower r.name == key))
  | [] => rfl
  | r :: rs => by
    by_cases h : pyLower r.name = key
    · simp [replaceFirst, h, List.filter_cons, hk]
    · simp [replaceFirst, h, List.filter_cons, replaceFirst_filter_ne key nw hk rs]

/-- The name stored by mkNewData for the stripped profile name is that
stripped name itself (the per-column default of the `name` column is the
cleaned name, so both branches agree). -/
theorem mkNewData_name (p : ProfileData) :
    (mkNewData p (pyStrip (p.name.getD ""))).name = pyStrip (p.name.getD "") := by
  simp [mkNewData, cleanStr]

/-! ### Claim C10 -/

/-- C10: frame property of the upsert.  For a profile whose stripped name is
non-empty, every row whose lower-cased name differs from the searched name is
preserved verbatim (same rows, same order, same multiplicity), and the table
either keeps its length (a matching row was replaced in place) or is the
original table with exactly the one new row appended. -/
theorem upsert_frame (df : List FarmerRow) (p : ProfileData)
    (hn : pyStrip (p.name.getD "") ≠ "") :
    ((add_or_update_farmer df p).filter
        (fun r => !(pyLower r.name == pyLower (pyStrip (p.name.getD "")))) =
      df.filter (fun r => !(pyLower r.name == pyLower (pyStrip (p.name.getD ""))))) ∧
    (df.any (fun r => pyLower r.name == pyLower (pyStrip (p.name.getD ""))) = true →
      (add_or_update_farmer df p).length = df.length) ∧
    (df.any (fun r => pyLower r.name == pyLower (pyStrip (p.name.getD ""))) = false →
      add_or_update_farmer df p = df ++ [mkNewData p (pyStrip (p.name.getD ""))]) := by
  have hname := mkNewData_name p
  have hnd : (mkNewData p (pyStrip (p.name.getD ""))).name ≠ "" := by
    rw [hname]; exact hn
  by_cases hmatch : df.any (fun r => pyLower r.name == pyLower (pyStrip (p.name.getD ""))) = true
  · have hres : add_or_update_farmer df p =
        replaceFirst (pyLower (pyStrip (p.name.getD ""))) (mkNewData p (pyStrip (p.name.getD ""))) df := by
      simp only [add_or_update_farmer]
      rw [if_neg hn, if_neg hnd, if_pos hmatch]
    refine ⟨?_, fun _ => ?_, fun hf => ?_⟩
    · rw [hres]
      exact replaceFirst_filter_ne _ _ (by rw [hname]) df
    · rw [hres]; exact replaceFirst_length _ _ df
    · rw [hf] at hmatch; cases hmatch
  · have hmatch2 : df.any (fun r => pyLower r.name == pyLower (pyStrip (p.name.getD ""))) = false :=
      Bool.not_eq_true _ |>.mp hmatch
    have hres : add_or_update_farmer df p = df ++ [mkNewData p (pyStrip (p.name.getD ""))] := by
      simp only [add_or_update_farmer]
      rw [if_neg hn, if_neg hnd, if_neg hmatch]
    refine ⟨?_, fun hf => ?_, fun _ => hres⟩
    · rw [hres, List.filter_append]
      have : ([mkNewData p (pyStrip (p.name.getD ""))].filter
          (fun r => !(pyLower r.name == pyLower (pyStrip (p.name.getD ""))))) = [] := by
        simp [List.filter_cons, hname]
      rw [this, List.append_nil]
    · rw [hf] at hmatch; cases hmatch rfl

/-- Witness for C10 at a concrete table and profile. -/
theorem upsert_frame_witness :
    pyStrip ((some "alice" : Option String).getD "") ≠ "" ∧
    ((add_or_update_farmer
        [{ name := "Bob", language := "English", soil_type := "Clay Soil",
           latitude := 1, longitude := 2, farm_size_ha := 3 }]
        { name := some "alice", language := none, soil_type := none,
          latitude := none, longitude := none, farm_size_ha := none }).filter
        (fun r => !(pyLower r.name == pyLower (pyStrip ((some "alice" : Option String).getD "")))) =
      [{ name := "Bob", language := "English", soil_type := "Clay Soil",
         latitude := 1, longitude := 2, farm_size_ha := 3 }].filter
        (fun r => !(pyLower r.name == pyLower (pyStrip ((some "alice" : Option String).getD ""))))) :=
  ⟨by decide,
   (upsert_frame
     [{ name := "Bob", language := "English", soil_type := "Clay Soil",
        latitude := 1, longitude := 2, farm_size_ha := 3 }]
     { name := some "alice", language := none, soil_type := none,
       latitude := none, longitude := none, farm_size_ha := none }
     (by decide)).1⟩

/-! ### Claim C5 -/

/-- Helper for the sanitisation step of find_farmer: a cleaned string field
(stripped, with a non-empty stripped default) passes through unchanged. -/
theorem sanitize_cleanStr (v : Option String) (dflt : String)
    (hd : pyStrip dflt = dflt) (hdne : dflt ≠ "") :
    (if pyStrip (cleanStr v dflt) = "" then dflt else pyStrip (cleanStr v dflt)) =
      cleanStr v dflt := by
  unfold cleanStr
  by_cases h : pyStrip (v.getD "") = ""
  · rw [if_pos h, hd, if_neg hdne]
  · rw [if_neg h, pyStrip_idem, if_neg h]

/-- The row stored by the upsert is a fixed point of find_farmer's
sanitisation. -/
theorem sanitize_mkNewData (p : ProfileData) :
    sanitizeRow (mkNewData p (pyStrip (p.name.getD ""))) =
      mkNewData p (pyStrip (p.name.getD "")) := by
  unfold sanitizeRow
  have h1 := sanitize_cleanStr p.language "English" (by decide) (by decide)
  have h2 := sanitize_cleanStr p.soil_type "Unknown" (by decide) (by decide)
  have h3 : pyStrip (cleanStr p.name (pyStrip (p.name.getD ""))) =
      cleanStr p.name (pyStrip (p.name.getD "")) := by
    have h4 := mkNewData_name p
    rw [show (mkNewData p (pyStrip (p.name.getD ""))).name =
        cleanStr p.name (pyStrip (p.name.getD "")) from rfl] at h4
    rw [h4, pyStrip_idem]
  simp only [mkNewData]
  rw [h1, h2, h3]

/-- C5: profile round-trip.  For a profile whose stripped name is non-empty
and a table whose lower-cased names are pairwise distinct (the store's
case-insensitive uniqueness invariant), upserting, saving, loading and then
finding by that name returns exactly the row the upsert stored — in
particular the same language, soil_type, farm_size_ha, latitude and
longitude. -/
theorem profile_roundtrip (df : List FarmerRow) (p : ProfileData)
    (hn : pyStrip (p.name.getD "") ≠ "")
    (hu : (df.map (fun r => pyLower r.name)).Nodup) :
    find_farmer (load_or_create_farmer_db (save_farmer_db (add_or_update_farmer df p)))
        (pyStrip (p.name.getD "")) =
      some (mkNewData p (pyStrip (p.name.getD ""))) := by
  have hname := mkNewData_name p
  have hndne : (mkNewData p (pyStrip (p.name.getD ""))).name ≠ "" := by
    rw [hname]; exact hn
  -- Step 1: the upserted table contains the stored row and keeps the
  -- case-insensitive uniqueness of names.
  have hstep1 : mkNewData p (pyStrip (p.name.getD "")) ∈ add_or_update_farmer df p ∧
      ((add_or_update_farmer df p).map (fun r => pyLower r.name)).Nodup := by
    by_cases hmatch :
        df.any (fun r => pyLower r.name == pyLower (pyStrip (p.name.getD ""))) = true
    · have hres : add_or_update_farmer df p =
          replaceFirst (pyLower (pyStrip (p.name.getD "")))
            (mkNewData p (pyStrip (p.name.getD ""))) df := by
        simp only [add_or_update_farmer]
        rw [if_neg hn, if_neg hndne, if_pos hmatch]
      refine ⟨?_, ?_⟩
      · rw [hres]; exact mem_replaceFirst _ _ df hmatch
      · rw [hres, replaceFirst_map_key _ _ (by rw [hname]) df]; exact hu
    · have hres : add_or_update_farmer df p =
          df ++ [mkNewData p (pyStrip (p.name.getD ""))] := by
        simp only [add_or_update_farmer]
        rw [if_neg hn, if_neg hndne, if_neg hmatch]
      have hkeynotin :
          pyLower (pyStrip (p.name.getD "")) ∉ df.map (fun r => pyLower r.name) := by
        intro hin
        obtain ⟨r, hr, hrk⟩ := List.mem_map.mp hin
        exact hmatch (List.any_eq_true.mpr ⟨r, hr, by simp [hrk]⟩)
      refine ⟨?_, ?_⟩
      · rw [hres]; simp
      · rw [hres, List.map_append]
        refine List.Nodup.append hu (List.nodup_singleton _) ?_
        intro a ha hb
        simp only [List.map_cons, List.map_nil, List.mem_singleton] at hb
        rw [hb, hname] at ha
        exact hkeynotin ha
  obtain ⟨hmem2, hnodup2⟩ := hstep1
  -- Step 2: saving keeps the stored row, uniqueness, and the all-names-non-
  -- empty property (as a permutation of the filtered table).
  have hmemkept : mkNewData p (pyStrip (p.name.getD "")) ∈
      (add_or_update_farmer df p).filter (fun r => !(r.name == "")) :=
    List.mem_filter.mpr ⟨hmem2, by simp [hndne]⟩
  have hsub : List.Sublist ((add_or_update_farmer df p).filter (fun r => !(r.name == "")))
      (add_or_update_farmer df p) := List.filter_sublist _
  have hnodupkept :
      (((add_or_update_farmer df p).filter (fun r => !(r.name == ""))).map
        (fun r => pyLower r.name)).Nodup :=
    List.Nodup.sublist (hsub.map (fun r => pyLower r.name)) hnodup2
  have hperm : List.Perm (save_farmer_db (add_or_update_farmer df p))
      ((add_or_update_farmer df p).filter (fun r => !(r.name == ""))) :=
    List.perm_insertionSort _ _
  have hmemsorted : mkNewData p (pyStrip (p.name.getD "")) ∈
      save_farmer_db (add_or_update_farmer df p) := hperm.mem_iff.mpr hmemkept
  have hnodupsorted :
      ((save_farmer_db (add_or_update_farmer df p)).map (fun r => pyLower r.name)).Nodup :=
    ((hperm.map (fun r => pyLower r.name)).nodup_iff).mpr hnodupkept
  -- Step 3: loading the written table is the identity (no empty names left).
  have hload : load_or_create_farmer_db (save_farmer_db (add_or_update_farmer df p)) =
      save_farmer_db (add_or_update_farmer df p) := by
    unfold load_or_create_farmer_db
    apply List.filter_eq_self.mpr
    intro r hr
    exact (List.mem_filter.mp (hperm.mem_iff.mp hr)).2
  rw [hload]
  -- Step 4: find_farmer returns the sanitised stored row.
  have hfind : (save_farmer_db (add_or_update_farmer df p)).find?
      (fun r => pyLower r.name == pyLower (pyStrip (p.name.getD ""))) =
      some (mkNewData p (pyStrip (p.name.getD ""))) := by
    apply find?_eq_some_of_unique _ hmemsorted
    · simp [hname]
    · intro y hy hpy
      have hky : pyLower y.name = pyLower (pyStrip (p.name.getD "")) := by
        simpa using hpy
      exact List.inj_on_of_nodup_map hnodupsorted hy hmemsorted (by rw [hky, hname])
  have hne : save_farmer_db (add_or_update_farmer df p) ≠ [] :=
    List.ne_nil_of_mem hmemsorted
  simp only [find_farmer]
  rw [if_neg hne, pyStrip_idem]
  rw [if_neg hn, hfind]
  show some (sanitizeRow (mkNewData p (pyStrip (p.name.getD "")))) =
    some (mkNewData p (pyStrip (p.name.getD "")))
  rw [sanitize_mkNewData]

/-- Witness for C5 at a concrete table and profile. -/
theorem profile_roundtrip_witness :
    pyStrip ((some " Ravi Kumar " : Option String).getD "") ≠ "" ∧
    find_farmer
        (load_or_create_farmer_db (save_farmer_db (add_or_update_farmer
          [{ name := "Bob", language := "English", soil_type := "Clay Soil",
             latitude := 1, longitude := 2, farm_size_ha := 3 }]
          { name := some " Ravi Kumar ", language := some "Hindi",
            soil_type := some "Loamy Soil", latitude := some 10,
            longitude := some 20, farm_size_ha := some 2 })))
        (pyStrip ((some " Ravi Kumar " : Option String).getD "")) =
      some (mkNewData
        { name := some " Ravi Kumar ", language := some "Hindi",
          soil_type := some "Loamy Soil", latitude := some 10,
          longitude := some 20, farm_size_ha := some 2 }
        (pyStrip ((some " Ravi Kumar " : Option String).getD ""))) :=
  ⟨by decide,
   profile_roundtrip
     [{ name := "Bob", language := "English", soil_type := "Clay Soil",
        latitude := 1, longitude := 2, farm_size_ha := 3 }]
     { name := some " Ravi Kumar ", language := some "Hindi",
       soil_type := some "Loamy Soil", latitude := some 10,
       longitude := some 20, farm_size_ha := some 2 }
     (by decide) (by decide)⟩

/-! ## Interaction Log history (app.py, get_recent_qa_history, lines 549-576)

The log table on disk becomes a `QALogFile`: absent file, malformed file
(unreadable CSV or missing required columns), or a readable list of typed
rows.  Timestamps are integers (the parsed `timestamp` column, ordered).
The translator `t` with the English dictionary is applied, giving the
concrete `history_*` templates of the translations table (lines 119). -/

/-- One row of qa_log.csv (columns of QA_LOG_COLUMNS). -/
structure QARow where
  timestamp : ℤ
  farmer_name : String
  language : String
  query : String
  response : String
  internal_prompt : String
deriving DecidableEq

/-- State of the log table as read from disk. -/
inductive QALogFile where
  | absent
  | malformed
  | ok (rows : List QARow)

/-- The `history_not_found` template of the English translations. -/
def history_not_found : String := "No recent interaction history found for this farmer."

/-- The `history_header` template of the English translations. -/
def history_header : String := "Recent Interaction History:"

/-- The `history_entry` template of the English translations, with the
`lang`/`query`/`response` arguments interpolated as `t` does. -/
def history_entry (lang query response : String) : String :=
  "Past Q (" ++ lang ++ "): " ++ query ++ "\nPast A (" ++ lang ++ "): " ++ response ++ "\n---"

/-- Model of Python slicing `s[:n]`. -/
def pySliceTo (n : ℕ) (s : String) : String := String.mk (s.data.take n)

/-- The truncation `(s[:n] + '...') if len(s) > n else s` (lines 568-569). -/
def truncateEntry (n : ℕ) (s : String) : String :=
  if s.length > n then pySliceTo n s ++ "..." else s

/-- Formatting of one history row (line 570): query truncated to 150 and
response to 250 characters with an ellipsis marker, newlines replaced by
spaces, interpolated into the history_entry template. -/
def formatHistEntry (r : QARow) : String :=
  history_entry r.language (pyReplaceNl (truncateEntry 150 r.query))
    (pyReplaceNl (truncateEntry 250 r.response))

/-- Shallow embedding of get_recent_qa_history (lines 549-576): empty string
for a blank farmer name, an absent, malformed or empty table; the
history_not_found sentinel when the table has no rows for the farmer
(case-insensitive); otherwise the newest `num_entries` matching rows,
newest first, formatted under the header. -/
def get_recent_qa_history (farmer_name : String) (file : QALogFile)
    (num_entries : ℕ) : String :=
  if pyStrip farmer_name = "" then ""
  else
    match file with
    | .absent => ""
    | .malformed => ""
    | .ok rows =>
      if rows = [] then ""
      else
        let farmer_name_clean := pyLower (pyStrip farmer_name)
        let farmer_history := rows.filter (fun r => pyLower r.farmer_name == farmer_name_clean)
        let sorted := List.insertionSort (fun a b : QARow => b.timestamp ≤ a.timestamp) farmer_history
        if sorted = [] then history_not_found
        else
          String.intercalate "\n"
            (history_header :: (sorted.take num_entries).map formatHistEntry)

/-! ### Claims C6 and C7 -/

/-- C6 counterexample: an absent log table, an empty log table and a
malformed log table all make get_recent_qa_history return the empty string,
not the explicit "no history" indicator — so the indicator is returned in
only one of the four claimed cases (no rows for the farmer). -/
theorem no_history_indicator_counterexample :
    get_recent_qa_history "Ravi" QALogFile.absent 3 = "" ∧
    get_recent_qa_history "Ravi" (QALogFile.ok []) 3 = "" ∧
    get_recent_qa_history "Ravi" QALogFile.malformed 3 = "" ∧
    history_not_found ≠ "" := by decide

/-- C6 amended: the explicit "no history" sentinel — non-empty, and not
beginning with the header every real formatted history block starts with —
is returned exactly when the table is present, well-formed and non-empty but
has no rows for the requested farmer; an absent, empty or malformed table
yields the empty string instead. -/
theorem no_history_sentinel_amended (farmer : String) (rows : List QARow) (num : ℕ)
    (hf : pyStrip farmer ≠ "") (hne : rows ≠ [])
    (hnomatch : ∀ r ∈ rows, pyLower r.farmer_name ≠ pyLower (pyStrip farmer)) :
    get_recent_qa_history farmer (QALogFile.ok rows) num = history_not_found ∧
    history_not_found ≠ "" ∧
    pyStartswith history_not_found history_header = false ∧
    get_recent_qa_history farmer QALogFile.absent num = "" ∧
    get_recent_qa_history farmer QALogFile.malformed num = "" ∧
    get_recent_qa_history farmer (QALogFile.ok []) num = "" := by
  have hfilter : rows.filter (fun r => pyLower r.farmer_name == pyLower (pyStrip farmer)) = [] := by
    apply List.filter_eq_nil_iff.mpr
    intro r hr
    simpa using hnomatch r hr
  refine ⟨?_, by decide, by decide, ?_, ?_, ?_⟩
  · simp only [get_recent_qa_history]
    rw [if_neg hf, if_neg hne, hfilter]
    rfl
  · simp only [get_recent_qa_history]
    rw [if_neg hf]
  · simp only [get_recent_qa_history]
    rw [if_neg hf]
  · simp only [get_recent_qa_history]
    rw [if_neg hf]
    simp

/-- Witness for the amended C6 at a concrete farmer and table. -/
theorem no_history_sentinel_amended_witness :
    get_recent_qa_history "Ravi"
        (QALogFile.ok [{ timestamp := 1, farmer_name := "Asha", language := "English",
                         query := "q", response := "a", internal_prompt := "p" }]) 3 =
      history_not_found ∧ history_not_found ≠ "" :=
  ⟨(no_history_sentinel_amended "Ravi"
      [{ timestamp := 1, farmer_name := "Asha", language := "English",
         query := "q", response := "a", internal_prompt := "p" }] 3
      (by decide) (by decide) (by decide)).1,
   (no_history_sentinel_amended "Ravi"
      [{ timestamp := 1, farmer_name := "Asha", language := "English",
         query := "q", response := "a", internal_prompt := "p" }] 3
      (by decide) (by decide) (by decide)).2.1⟩

/-- Inserting an element that the relation places after every element of a
list appends it at the end. -/
theorem orderedInsert_eq_append {α : Type} (r : α → α → Prop) [DecidableRel r] (a : α) :
    ∀ l : List α, (∀ b ∈ l, ¬ r a b) → List.orderedInsert r a l = l ++ [a]
  | [], _ => rfl
  | b :: t, h => by
    rw [List.orderedInsert, if_neg (h b (List.mem_cons_self b t)),
      orderedInsert_eq_append r a t (fun x hx => h x (List.mem_cons_of_mem b hx))]
    rfl

/-- Sorting by descending timestamp a list whose timestamps strictly increase
yields its reverse. -/
theorem insertionSort_desc_of_strictInc :
    ∀ l : List QARow, l.Pairwise (fun a b => a.timestamp < b.timestamp) →
      List.insertionSort (fun a b : QARow => b.timestamp ≤ a.timestamp) l = l.reverse
  | [], _ => rfl
  | a :: t, h => by
    have ha := (List.pairwise_cons.mp h).1
    have ht := (List.pairwise_cons.mp h).2
    rw [List.insertionSort, insertionSort_desc_of_strictInc t ht,
      orderedInsert_eq_append _ a t.reverse ?_, List.reverse_cons]
    intro b hb
    exact not_le.mpr (ha b (List.mem_reverse.mp hb))

/-- C7: for a log table whose rows for the requested farmer (matched
case-insensitively) number more than 3 and carry strictly increasing
timestamps, history retrieval with limit 3 returns the header followed by
exactly the 3 most recent matching entries, newest first, each formatted
with the query truncated to 150 and the response to 250 characters (ellipsis
appended on truncation) and embedded newlines replaced by spaces. -/
theorem history_order_truncation (farmer : String) (rows : List QARow)
    (hf : pyStrip farmer ≠ "")
    (hlen : 3 <
      (rows.filter (fun r => pyLower r.farmer_name == pyLower (pyStrip farmer))).length)
    (hinc : (rows.filter (fun r => pyLower r.farmer_name == pyLower (pyStrip farmer))).Pairwise
      (fun a b => a.timestamp < b.timestamp)) :
    get_recent_qa_history farmer (QALogFile.ok rows) 3 =
      String.intercalate "\n" (history_header ::
        (((rows.filter
            (fun r => pyLower r.farmer_name == pyLower (pyStrip farmer))).reverse.take 3).map
          formatHistEntry)) := by
  have hfne : rows ≠ [] := by
    intro h
    rw [h] at hlen
    simp at hlen
  have hsort := insertionSort_desc_of_strictInc _ hinc
  have hrne : (rows.filter
      (fun r => pyLower r.farmer_name == pyLower (pyStrip farmer))).reverse ≠ [] := by
    intro h
    rw [List.reverse_eq_nil_iff] at h
    rw [h] at hlen
    simp at hlen
  simp only [get_recent_qa_history]
  rw [if_neg hf, if_neg hfne, hsort, if_neg hrne]

/-- A concrete 5-row log table: four rows for Ravi with increasing
timestamps plus one row for another farmer. -/
def c7Rows : List QARow :=
  [{ timestamp := 1, farmer_name := "Ravi", language := "English",
     query := "q1", response := "a1", internal_prompt := "p1" },
   { timestamp := 2, farmer_name := "Asha", language := "English",
     query := "qx", response := "ax", internal_prompt := "px" },
   { timestamp := 3, farmer_name := "ravi", language := "English",
     query := "q2", response := "a2", internal_prompt := "p2" },
   { timestamp := 4, farmer_name := "Ravi", language := "English",
     query := "q3", response := "a3", internal_prompt := "p3" },
   { timestamp := 5, farmer_name := "RAVI", language := "English",
     query := "q4", response := "a4", internal_prompt := "p4" }]

/-- Witness for C7 at the concrete table. -/
theorem history_order_truncation_witness :
    get_recent_qa_history "Ravi" (QALogFile.ok c7Rows) 3 =
      String.intercalate "\n" (history_header ::
        (((c7Rows.filter
            (fun r => pyLower r.farmer_name == pyLower (pyStrip "Ravi"))).reverse.take 3).map
          formatHistEntry)) :=
  history_order_truncation "Ravi" c7Rows (by decide) (by decide)
    (by decide)

/-! ## Intent routing (app.py, process_farmer_request, lines 792-831)

The if/elif chain over the lower-cased stripped query, with the general
intent as the `not intent_identified` fallback. -/

/-- The five intents. -/
inductive Intent where
  | crop | market | weather | health | general
deriving DecidableEq

/-- Keyword set of the crop-recommendation branch (line 794). -/
def cropKeywords : List String :=
  ["crop recommend", "suggest crop", "kya ugana", "फसल सुझाएं", "பயிர்களைப் பரிந்துரை",
   "ফসল সুপারিশ করুন", "పంటలను సూచించండి", "पिके सुचवा"]

/-- Keyword set of the market-price branch (line 802). -/
def marketKeywords : List String :=
  ["market price", "bhav kya hai", "rate kya hai", "बाजार भाव", "சந்தை விலை", "বাজারদর",
   "మార్కెట్ ధర", "बाजारभाव"]

/-- Keyword set of the weather branch (line 813). -/
def weatherKeywords : List String :=
  ["weather", "mausam", "मौसम", "வானிலை", "আবহাওয়া", "వాతావరణం", "हवामान"]

/-- Keyword set of the plant-health branch (line 822). -/
def healthKeywords : List String :=
  ["disease", "pest", "problem", "rog", "bimari", "कीट", "நோய்", "রোগ", "తెగులు", "कीड", "समस्या"]

/-- `any(keyword in query_lower for keyword in ...)`. -/
def kwMatch (kws : List String) (query_lower : String) : Bool :=
  kws.any (fun k => pyIn k query_lower)

/-- The intent selected by the if/elif chain for a query: crop, else market,
else weather, else plant-health, else general. -/
def intentOf (text_query : String) : Intent :=
  let query_lower := pyLower (pyStrip text_query)
  if kwMatch cropKeywords query_lower then .crop
  else if kwMatch marketKeywords query_lower then .market
  else if kwMatch weatherKeywords query_lower then .weather
  else if kwMatch healthKeywords query_lower then .health
  else .general

/-! ### Claim C8 -/

/-- C8: intent routing is first-match over the lower-cased query in the
fixed order crop, market, weather, plant-health, with general as fallback:
each intent fires exactly when its keyword set matches and no earlier one
does (so exactly one intent is selected for every query), and the concrete
query containing both a crop keyword and a weather keyword routes to
crop-recommendation. -/
theorem intent_priority_first_match (q : String) :
    (intentOf q = .crop ↔ kwMatch cropKeywords (pyLower (pyStrip q)) = true) ∧
    (intentOf q = .market ↔
      (kwMatch cropKeywords (pyLower (pyStrip q)) = false ∧
       kwMatch marketKeywords (pyLower (pyStrip q)) = true)) ∧
    (intentOf q = .weather ↔
      (kwMatch cropKeywords (pyLower (pyStrip q)) = false ∧
       kwMatch marketKeywords (pyLower (pyStrip q)) = false ∧
       kwMatch weatherKeywords (pyLower (pyStrip q)) = true)) ∧
    (intentOf q = .health ↔
      (kwMatch cropKeywords (pyLower (pyStrip q)) = false ∧
       kwMatch marketKeywords (pyLower (pyStrip q)) = false ∧
       kwMatch weatherKeywords (pyLower (pyStrip q)) = false ∧
       kwMatch healthKeywords (pyLower (pyStrip q)) = true)) ∧
    (intentOf q = .general ↔
      (kwMatch cropKeywords (pyLower (pyStrip q)) = false ∧
       kwMatch marketKeywords (pyLower (pyStrip q)) = false ∧
       kwMatch weatherKeywords (pyLower (pyStrip q)) = false ∧
       kwMatch healthKeywords (pyLower (pyStrip q)) = false)) ∧
    intentOf "suggest crops for this weather" = .crop := by
  refine ⟨?_, ?_, ?_, ?_, ?_, by decide⟩ <;>
  · rcases h1 : kwMatch cropKeywords (pyLower (pyStrip q)) <;>
    rcases h2 : kwMatch marketKeywords (pyLower (pyStrip q)) <;>
    rcases h3 : kwMatch weatherKeywords (pyLower (pyStrip q)) <;>
    rcases h4 : kwMatch healthKeywords (pyLower (pyStrip q)) <;>
      simp [intentOf, h1, h2, h3, h4]

/-! ## Advice classification and logging (app.py, lines 842-861)

The tail of process_farmer_request: the generator output is classified by
the sentinel-prefix test of line 843; a successful answer triggers exactly
one log_qa append, modelled as appending one entry to the log row list. -/

/-- The sentinel prefixes of line 843. -/
def ERROR_PREFIXES : List String :=
  ["Error:", "Sorry,", "Warning:", "Could not", "Internal error"]

/-- `is_error_response` of line 843 (a missing response is modelled by the
empty string, handled separately as in the source). -/
def isErrorResponse (final_response : String) : Bool :=
  ERROR_PREFIXES.any (fun p => pyStartswith final_response p)

/-- The `processing_error` message substituted for an empty response
(line 850). -/
def processing_error_empty : String :=
  "A critical error occurred during processing: AI assistant did not provide a response."

/-- Shallow embedding of lines 843-861: returns (status, response_text,
log-after), where the log is the list of rows of qa_log.csv and `entry` the
row log_qa would append. -/
def classify_and_log (final_response : String) (log : List QARow) (entry : QARow) :
    String × String × List QARow :=
  if final_response ≠ "" ∧ isErrorResponse final_response = false then
    ("success", final_response, log ++ [entry])
  else if final_response = "" then
    ("error", processing_error_empty, log)
  else
    ("error", final_response, log)

/-! ### Claim C9 -/

/-- C9 counterexample: the generator output "Sorry, no answer." is non-empty
and does not begin with "Error:", yet it is classified with status error and
triggers no log append, refuting the claim that every non-empty output not
beginning with "Error:" is a success with exactly one append. -/
theorem sorry_prefix_counterexample :
    pyStartswith "Sorry, no answer." "Error:" = false ∧
    "Sorry, no answer." ≠ "" ∧
    (classify_and_log "Sorry, no answer." []
      { timestamp := 0, farmer_name := "Ravi", language := "English",
        query := "q", response := "a", internal_prompt := "p" }).1 = "error" ∧
    (classify_and_log "Sorry, no answer." []
      { timestamp := 0, farmer_name := "Ravi", language := "English",
        query := "q", response := "a", internal_prompt := "p" }).2.2 = [] := by
  decide

/-- C9 amended: an output beginning with "Error:" is classified error and
triggers no log append, and a non-empty output beginning with none of the
five sentinel prefixes ("Error:", "Sorry,", "Warning:", "Could not",
"Internal error") is classified success and triggers exactly one log
append. -/
theorem advice_classification_amended (r : String) (log : List QARow) (entry : QARow) :
    (pyStartswith r "Error:" = true →
      (classify_and_log r log entry).1 = "error" ∧
      (classify_and_log r log entry).2.2 = log) ∧
    (r ≠ "" → isErrorResponse r = false →
      (classify_and_log r log entry).1 = "success" ∧
      (classify_and_log r log entry).2.2 = log ++ [entry]) := by
  constructor
  · intro h
    have herr : isErrorResponse r = true := by
      simp only [isErrorResponse, ERROR_PREFIXES, List.any_cons, Bool.or_eq_true]
      exact Or.inl h
    have hne : r ≠ "" := by
      intro he
      rw [he] at h
      exact absurd h (by decide)
    have hnot : ¬ (r ≠ "" ∧ isErrorResponse r = false) := by
      rintro ⟨-, hfalse⟩
      rw [herr] at hfalse
      cases hfalse
    simp only [classify_and_log]
    rw [if_neg hnot, if_neg hne]
    exact ⟨rfl, rfl⟩
  · intro hne hok
    simp only [classify_and_log]
    rw [if_pos ⟨hne, hok⟩]
    exact ⟨rfl, rfl⟩

/-- Witness for the amended C9 at concrete outputs. -/
theorem advice_classification_amended_witness :
    ((classify_and_log "Error: bad key" []
        { timestamp := 0, farmer_name := "Ravi", language := "English",
          query := "q", response := "a", internal_prompt := "p" }).1 = "error" ∧
     (classify_and_log "Error: bad key" []
        { timestamp := 0, farmer_name := "Ravi", language := "English",
          query := "q", response := "a", internal_prompt := "p" }).2.2 = []) ∧
    ((classify_and_log "Water the field daily." []
        { timestamp := 0, farmer_name := "Ravi", language := "English",
          query := "q", response := "a", internal_prompt := "p" }).1 = "success" ∧
     (classify_and_log "Water the field daily." []
        { timestamp := 0, farmer_name := "Ravi", language := "English",
          query := "q", response := "a", internal_prompt := "p" }).2.2 =
      [] ++ [{ timestamp := 0, farmer_name := "Ravi", language := "English",
               query := "q", response := "a", internal_prompt := "p" }]) :=
  ⟨(advice_classification_amended "Error: bad key" []
      { timestamp := 0, farmer_name := "Ravi", language := "English",
        query := "q", response := "a", internal_prompt := "p" }).1 (by decide),
   (advice_classification_amended "Water the field daily." []
      { timestamp := 0, farmer_name := "Ravi", language := "English",
        query := "q", response := "a", internal_prompt := "p" }).2 (by decide) (by decide)⟩

end KrishiSahayak
